import Mathlib

/-!
Verification of the Party-Playlister backend (Express server, first variant of
`src/unnamed/part_000`, lines 1-359).

The server is shallowly embedded: each Express handler becomes a pure Lean
function from its inputs (session state, query/body, clock value) and an
oracle describing the upstream HTTP responses it would receive, to a result
consisting of an HTTP status, the updated session state, and the ordered
trace of upstream calls issued.  JavaScript truthiness of the relevant
values (strings, numbers, optional fields) is modelled explicitly.
Timestamps are naturals (milliseconds, as `Date.now()`).
-/

namespace PartyPlaylister

/-- JS truthiness of a possibly-absent string: present and non-empty. -/
def truthyStr : Option String → Bool
  | none => false
  | some s => s ≠ ""

/-- JS truthiness of a possibly-absent number (here an integer): present and non-zero. -/
def truthyInt : Option Int → Bool
  | none => false
  | some n => n ≠ 0

/-- JS truthiness of a possibly-absent natural (timestamps): present and non-zero. -/
def truthyNat : Option Nat → Bool
  | none => false
  | some n => n ≠ 0

/-- `x || null` on an optional string query parameter: the empty string collapses to null. -/
def orNull : Option String → Option String
  | none => none
  | some s => if s = "" then none else some s

/-- Per-session token state (`req.session`): `accessToken`, `refreshToken`,
`expiresAt` (ms timestamp) and the anti-CSRF `state`, each possibly absent. -/
structure SessionState where
  accessToken : Option String
  refreshToken : Option String
  expiresAt : Option Nat
  state : Option String
deriving DecidableEq, Repr

/-- A session with no fields set. -/
def emptySession : SessionState := ⟨none, none, none, none⟩

/-- Process-wide configuration relevant to token resolution:
`SERVICE_REFRESH_TOKEN` (optional; enables demo mode). -/
structure Config where
  serviceRefreshToken : Option String
deriving DecidableEq, Repr

/-- Upstream response to a token-endpoint exchange (`/api/token`), as the
code consumes it: the HTTP success flag `response.ok` and the JSON fields. -/
structure TokenResponse where
  ok : Bool
  access_token : String
  refresh_token : String
  expires_in : Nat
deriving DecidableEq, Repr

/-- One upstream HTTP call issued by the server, recorded in order. -/
inductive UpstreamCall where
  /-- POST to the token endpoint with `grant_type=refresh_token`. -/
  | refreshExchange (refreshToken : String)
  /-- POST to the token endpoint with `grant_type=authorization_code`. -/
  | codeExchange (code : String)
  /-- GET `/v1/search` with query `q`, a `type` and a `limit`. -/
  | searchCall (q : String) (typ : String) (limit : Nat)
  /-- GET `/v1/me`. -/
  | meCall
  /-- POST `/v1/users/{userId}/playlists` with a name and visibility. -/
  | createPlaylistCall (userId : String) (name : String) (isPublic : Bool)
  /-- POST `/v1/playlists/{playlistId}/tracks` with a batch of URIs. -/
  | addTracksCall (playlistId : String) (uris : List String)
deriving DecidableEq, Repr

/-- Auth mode tag returned with a resolved token. -/
inductive Mode where
  | user
  | demo
deriving DecidableEq, Repr

/-- Outcome of `getAccessToken`: a token with its mode, or one of the two
thrown errors (`Spotify API error: ...` for a failed service exchange,
`No authentication available...` when nothing is configured). -/
inductive TokenResult where
  | ok (token : String) (mode : Mode)
  | upstreamAuthError
  | noCredentialsError
deriving DecidableEq, Repr

/-- Step 1 guard of `getAccessToken`:
`session.accessToken && session.expiresAt && Date.now() < session.expiresAt`. -/
def validAccess (sess : SessionState) (now : Nat) : Bool :=
  truthyStr sess.accessToken &&
    (match sess.expiresAt with
     | some e => decide (e ≠ 0) && decide (now < e)
     | none => false)

/-- Final fallback of `getAccessToken` (lines 74-97): if `SERVICE_REFRESH_TOKEN`
is truthy, exchange it (`svcResp` is the upstream reply); a non-ok reply throws
the `Spotify API error` (modelled `upstreamAuthError`); with no service token
the `No authentication available` error (`noCredentialsError`) is thrown. -/
def serviceFallback (cfg : Config) (svcResp : TokenResponse) :
    TokenResult × List UpstreamCall :=
  if truthyStr cfg.serviceRefreshToken then
    ((if svcResp.ok then TokenResult.ok svcResp.access_token Mode.demo
      else TokenResult.upstreamAuthError),
     [UpstreamCall.refreshExchange (cfg.serviceRefreshToken.getD "")])
  else (TokenResult.noCredentialsError, [])

/-- `getAccessToken(session)` (lines 41-98).  `userRefreshResp` is the upstream
reply to a user refresh exchange, `none` standing for a thrown fetch/JSON error
(caught by the `try`/`catch`, which falls through); `svcResp` is the reply a
service-token exchange would get.  Returns the result, the (possibly mutated)
session, and the trace of upstream calls. -/
def getAccessToken (cfg : Config) (sess : SessionState) (now : Nat)
    (userRefreshResp : Option TokenResponse) (svcResp : TokenResponse) :
    TokenResult × SessionState × List UpstreamCall :=
  if validAccess sess now then
    (TokenResult.ok (sess.accessToken.getD "") Mode.user, sess, [])
  else if truthyStr sess.refreshToken then
    let r := sess.refreshToken.getD ""
    match userRefreshResp with
    | some resp =>
      if resp.ok then
        (TokenResult.ok resp.access_token Mode.user,
         { sess with
             accessToken := some resp.access_token,
             expiresAt := some (now + resp.expires_in * 1000) },
         [UpstreamCall.refreshExchange r])
      else
        let fb := serviceFallback cfg svcResp
        (fb.1, sess, UpstreamCall.refreshExchange r :: fb.2)
    | none =>
        let fb := serviceFallback cfg svcResp
        (fb.1, sess, UpstreamCall.refreshExchange r :: fb.2)
  else
    let fb := serviceFallback cfg svcResp
    (fb.1, sess, fb.2)

/-- Query string of `GET /callback`: `code`, `state`, `error`, each optional. -/
structure CallbackQuery where
  code : Option String
  state : Option String
  error : Option String
deriving DecidableEq, Repr

/-- `GET /callback` handler (lines 126-208).  `exchResp` is the upstream reply
to the authorization-code exchange, `none` standing for a thrown fetch/JSON
error (caught, surfaced as 500).  Returns HTTP status, updated session and
the upstream call trace. -/
def callbackHandler (sess : SessionState) (now : Nat) (q : CallbackQuery)
    (exchResp : Option TokenResponse) :
    Nat × SessionState × List UpstreamCall :=
  let code := orNull q.code
  let err := orNull q.error
  match err with
  | some _ => (400, sess, [])
  | none =>
    match code with
    | none => (400, sess, [])
    | some c =>
      if truthyStr sess.state && decide (orNull q.state ≠ sess.state) then
        (400, sess, [])
      else
        -- exchange the code (inside try/catch)
        match exchResp with
        | none => (500, sess, [UpstreamCall.codeExchange c])
        | some resp =>
          if resp.ok then
            (200,
             { sess with
                 accessToken := some resp.access_token,
                 refreshToken := some resp.refresh_token,
                 expiresAt := some (now + resp.expires_in * 1000),
                 state := none },
             [UpstreamCall.codeExchange c])
          else
            (500, sess, [UpstreamCall.codeExchange c])

/-- Upstream reply to the artist search of `GET /api/search-artists`. -/
structure ArtistSearchResp where
  ok : Bool
  artists : Option (List String)
deriving DecidableEq, Repr

/-- `GET /api/search-artists` handler (lines 232-259).  Note that the source
resolves the access token BEFORE validating the `q` parameter; an error thrown
by `getAccessToken` is caught and surfaced as 500. -/
def searchArtistsHandler (cfg : Config) (sess : SessionState) (now : Nat)
    (userRefreshResp : Option TokenResponse) (svcResp : TokenResponse)
    (q : Option String) (resp : ArtistSearchResp) :
    Nat × SessionState × List UpstreamCall :=
  let tok := getAccessToken cfg sess now userRefreshResp svcResp
  match tok.1 with
  | TokenResult.ok _token _mode =>
    if truthyStr q then
      let calls := tok.2.2 ++ [UpstreamCall.searchCall (q.getD "") "artist" 5]
      if resp.ok then (200, tok.2.1, calls) else (500, tok.2.1, calls)
    else
      (400, tok.2.1, tok.2.2)
  | TokenResult.upstreamAuthError => (500, tok.2.1, tok.2.2)
  | TokenResult.noCredentialsError => (500, tok.2.1, tok.2.2)

/-- A track candidate: only its `uri` matters to the server. -/
structure Track where
  uri : String
deriving DecidableEq, Repr

/-- Upstream reply to one per-artist track search in `POST /api/generate`:
the `ok` flag and the optional `tracks.items` payload. -/
structure TrackSearchResp where
  ok : Bool
  tracks : Option (List Track)
deriving DecidableEq, Repr

/-- Upstream reply to `GET /v1/me`. -/
structure MeResp where
  ok : Bool
  id : String
deriving DecidableEq, Repr

/-- Upstream reply to the playlist-creation call. -/
structure CreateResp where
  ok : Bool
  id : String
  name : String
  url : String
deriving DecidableEq, Repr

/-- Upstream reply to the track-insertion call (the source never inspects it). -/
structure AddTracksResp where
  ok : Bool
deriving DecidableEq, Repr

/-- Body of `POST /api/generate`. -/
structure GenRequest where
  name : Option String
  artists : Option (List String)
  songCount : Option Int
  startYear : Option Int
  endYear : Option Int
deriving DecidableEq, Repr

/-- Per-artist search query (line 279-280): `artist:"<artist>"`, suffixed with
` year:<start>-<end>` when `startYear && endYear` is truthy. -/
def buildQuery (startYear endYear : Option Int) (artist : String) : String :=
  let yearFilter :=
    if truthyInt startYear && truthyInt endYear then
      " year:" ++ toString (startYear.getD 0) ++ "-" ++ toString (endYear.getD 0)
    else ""
  "artist:\"" ++ artist ++ "\"" ++ yearFilter

/-- The per-artist search loop of `POST /api/generate` (lines 277-294), with
`i` the index of the first remaining artist: each artist gets a track search
with limit 15; a non-ok reply skips that artist (the loop continues); an ok
reply contributes `tracks.items` when the `tracks` field is present.
Returns the accumulated candidate pool and the search-call trace. -/
def gatherTracksAux (startYear endYear : Option Int)
    (searchRespFor : Nat → TrackSearchResp) :
    Nat → List String → List Track × List UpstreamCall
  | _, [] => ([], [])
  | i, a :: rest =>
    let resp := searchRespFor i
    let tail := gatherTracksAux startYear endYear searchRespFor (i + 1) rest
    let myTracks := if resp.ok then resp.tracks.getD [] else []
    (myTracks ++ tail.1,
     UpstreamCall.searchCall (buildQuery startYear endYear a) "track" 15 :: tail.2)

/-- The whole per-artist search phase, starting at artist index 0. -/
def gatherTracks (startYear endYear : Option Int) (artists : List String)
    (searchRespFor : Nat → TrackSearchResp) : List Track × List UpstreamCall :=
  gatherTracksAux startYear endYear searchRespFor 0 artists

/-- Selection step (lines 296-299): `allTracks.sort(...).slice(0, songCount || 20)
.map(t => t.uri)`, applied here to the already-shuffled pool.  JS `slice`
semantics for the end bound: a negative bound counts from the end; otherwise
it is clamped to the length. -/
def selectUris (shuffledPool : List Track) (songCount : Option Int) : List String :=
  let k : Int := if truthyInt songCount then songCount.getD 0 else 20
  let takeN : Nat := if k < 0 then ((shuffledPool.length : Int) + k).toNat else k.toNat
  (shuffledPool.take takeN).map Track.uri

/-- The `songCount` validation guard (line 270):
`songCount && (songCount < 1 || songCount > 100)`. -/
def songCountInvalid (songCount : Option Int) : Bool :=
  truthyInt songCount &&
    (decide ((songCount.getD 0) < 1) || decide ((songCount.getD 0) > 100))

/-- The `name`/`artists` validation guard (line 266):
`!name || !artists || !Array.isArray(artists) || artists.length === 0`. -/
def nameArtistsInvalid (req : GenRequest) : Bool :=
  !truthyStr req.name ||
    (match req.artists with
     | none => true
     | some l => l.isEmpty)

/-- `POST /api/generate` handler (lines 262-349).  Oracles: token-endpoint
replies as in `getAccessToken`; `searchRespFor i` is the reply to the search
for the `i`-th artist; `shuffle` is the permutation produced by the
comparator-based random sort; `meResp`, `createResp` the replies to the
profile fetch and playlist creation.  The reply to the track-insertion call
(`_addResp`) is accepted but never inspected, exactly as in the source
(lines 331-338 do not check the response).  Returns HTTP status, updated
session and the upstream call trace. -/
def generateHandler (cfg : Config) (sess : SessionState) (now : Nat)
    (userRefreshResp : Option TokenResponse) (svcResp : TokenResponse)
    (req : GenRequest) (searchRespFor : Nat → TrackSearchResp)
    (shuffle : List Track → List Track)
    (meResp : MeResp) (createResp : CreateResp) ( _addResp : AddTracksResp) :
    Nat × SessionState × List UpstreamCall :=
  if nameArtistsInvalid req then (400, sess, [])
  else if songCountInvalid req.songCount then (400, sess, [])
  else
    let tok := getAccessToken cfg sess now userRefreshResp svcResp
    match tok.1 with
    | TokenResult.upstreamAuthError => (500, tok.2.1, tok.2.2)
    | TokenResult.noCredentialsError => (500, tok.2.1, tok.2.2)
    | TokenResult.ok _token _mode =>
      let gathered := gatherTracks req.startYear req.endYear (req.artists.getD []) searchRespFor
      let selected := selectUris (shuffle gathered.1) req.songCount
      let calls1 := tok.2.2 ++ gathered.2
      if selected.isEmpty then (404, tok.2.1, calls1)
      else
        let calls2 := calls1 ++ [UpstreamCall.meCall]
        if !meResp.ok then (500, tok.2.1, calls2)
        else
          let pname := if truthyStr req.name then req.name.getD "" else "New Vibe Playlist"
          let calls3 := calls2 ++ [UpstreamCall.createPlaylistCall meResp.id pname true]
          if !createResp.ok then (500, tok.2.1, calls3)
          else
            let calls4 := calls3 ++ [UpstreamCall.addTracksCall createResp.id selected]
            (200, tok.2.1, calls4)

/-! ## Helper lemmas -/

/-- Every upstream call issued by `getAccessToken` is a refresh exchange at the
token endpoint: it never performs a search, profile, playlist or insertion call. -/
theorem getAccessToken_calls_refresh_only (cfg : Config) (sess : SessionState)
    (now : Nat) (u : Option TokenResponse) (s : TokenResponse) :
    ∀ c ∈ (getAccessToken cfg sess now u s).2.2,
      ∃ r, c = UpstreamCall.refreshExchange r := by
  have hfb : ∀ c ∈ (serviceFallback cfg s).2, ∃ r, c = UpstreamCall.refreshExchange r := by
    intro c hc
    unfold serviceFallback at hc
    by_cases hs : truthyStr cfg.serviceRefreshToken
    · simp [hs] at hc
      exact ⟨_, hc⟩
    · simp [hs] at hc
  intro c hc
  unfold getAccessToken at hc
  by_cases hv : validAccess sess now
  · simp [hv] at hc
  · by_cases hr : truthyStr sess.refreshToken
    · cases u with
      | none =>
        simp [hv, hr] at hc
        rcases hc with hc | hc
        · exact ⟨_, hc⟩
        · exact hfb c hc
      | some resp =>
        by_cases hok : resp.ok
        · simp [hv, hr, hok] at hc
          exact ⟨_, hc⟩
        · simp [hv, hr, hok] at hc
          rcases hc with hc | hc
          · exact ⟨_, hc⟩
          · exact hfb c hc
    · simp [hv, hr] at hc
      exact hfb c hc

/-- Every upstream call issued by the per-artist search loop is a track search
with limit 15. -/
theorem gatherTracksAux_calls_search_only (startYear endYear : Option Int)
    (f : Nat → TrackSearchResp) :
    ∀ artists i, ∀ c ∈ (gatherTracksAux startYear endYear f i artists).2,
      ∃ q, c = UpstreamCall.searchCall q "track" 15 := by
  intro artists
  induction artists with
  | nil => intro i c hc; simp [gatherTracksAux] at hc
  | cons a rest ih =>
    intro i c hc
    simp only [gatherTracksAux, List.mem_cons] at hc
    rcases hc with hc | hc
    · exact ⟨_, hc⟩
    · exact ih (i + 1) c hc

/-! ## Claim theorems -/

/-- C3: a session holding an access token with `expiresAt` strictly in the
future (and both fields truthy) makes the provider return exactly that token
with mode `user`, issue no upstream call, and leave the session unchanged. -/
theorem c3_cache_hit (cfg : Config) (sess : SessionState) (now : Nat)
    (userRefreshResp : Option TokenResponse) (svcResp : TokenResponse)
    (a : String) (e : Nat)
    (ha : sess.accessToken = some a) (ha' : a ≠ "")
    (he : sess.expiresAt = some e) (he0 : e ≠ 0) (hlt : now < e) :
    getAccessToken cfg sess now userRefreshResp svcResp =
      (TokenResult.ok a Mode.user, sess, []) := by
  have hv : validAccess sess now = true := by
    simp [validAccess, truthyStr, ha, he, ha', he0, hlt]
  simp [getAccessToken, hv, ha]

/-- Concrete instance of `c3_cache_hit`. -/
theorem c3_cache_hit_witness :
    getAccessToken ⟨some "svc"⟩ ⟨some "tok", none, some 100, none⟩ 50
      none ⟨true, "x", "y", 60⟩ =
      (TokenResult.ok "tok" Mode.user, ⟨some "tok", none, some 100, none⟩, []) :=
  c3_cache_hit ⟨some "svc"⟩ ⟨some "tok", none, some 100, none⟩ 50
    none ⟨true, "x", "y", 60⟩ "tok" 100 rfl (by decide) rfl (by decide) (by decide)

/-- C2: with no still-valid access token but a (truthy) refresh token, the
provider issues the user refresh exchange first; on an ok reply it is the only
upstream call, the session's `accessToken` is set to the new token and
`expiresAt` to `now + expires_in * 1000` (the upstream `expires_in` is in
seconds, the session timestamp in milliseconds), and the token is returned
with mode `user`; on a non-ok reply, or a thrown fetch error, nothing is
raised and the call falls through to the service fallback with the session
unchanged. -/
theorem c2_user_refresh (cfg : Config) (sess : SessionState) (now : Nat)
    (userRefreshResp : Option TokenResponse) (svcResp : TokenResponse) (r : String)
    (hnv : validAccess sess now = false)
    (hr : sess.refreshToken = some r) (hr' : r ≠ "") :
    (∀ resp, userRefreshResp = some resp → resp.ok = true →
      getAccessToken cfg sess now userRefreshResp svcResp =
        (TokenResult.ok resp.access_token Mode.user,
         { sess with
             accessToken := some resp.access_token,
             expiresAt := some (now + resp.expires_in * 1000) },
         [UpstreamCall.refreshExchange r])) ∧
    (∀ resp, userRefreshResp = some resp → resp.ok = false →
      getAccessToken cfg sess now userRefreshResp svcResp =
        ((serviceFallback cfg svcResp).1, sess,
         UpstreamCall.refreshExchange r :: (serviceFallback cfg svcResp).2)) ∧
    (userRefreshResp = none →
      getAccessToken cfg sess now userRefreshResp svcResp =
        ((serviceFallback cfg svcResp).1, sess,
         UpstreamCall.refreshExchange r :: (serviceFallback cfg svcResp).2)) := by
  have ht : truthyStr (some r) = true := by simp [truthyStr, hr']
  refine ⟨?_, ?_, ?_⟩
  · intro resp hresp hok
    subst hresp
    simp [getAccessToken, hnv, hr, ht, hok]
  · intro resp hresp hok
    subst hresp
    simp [getAccessToken, hnv, hr, ht, hok]
  · intro hresp
    subst hresp
    simp [getAccessToken, hnv, hr, ht]

/-- Concrete instance of `c2_user_refresh` (the successful-refresh branch). -/
theorem c2_user_refresh_witness :
    getAccessToken ⟨none⟩ ⟨none, some "r", none, none⟩ 5
      (some ⟨true, "newTok", "rt", 3600⟩) ⟨false, "", "", 0⟩ =
      (TokenResult.ok "newTok" Mode.user,
       ⟨some "newTok", some "r", some (5 + 3600 * 1000), none⟩,
       [UpstreamCall.refreshExchange "r"]) :=
  (c2_user_refresh ⟨none⟩ ⟨none, some "r", none, none⟩ 5
      (some ⟨true, "newTok", "rt", 3600⟩) ⟨false, "", "", 0⟩ "r"
      (by decide) rfl (by decide)).1 ⟨true, "newTok", "rt", 3600⟩ rfl rfl

/-- C1: with no still-valid access token and no (truthy) refresh token, the
provider's outcome and trace are exactly those of the service fallback and the
session is unchanged: with a configured (truthy) service refresh token it
exchanges it (one upstream call), returning the token with mode `demo` on an
ok reply and raising the upstream-auth error on a non-ok reply; with no
service refresh token it raises the no-credentials error with no upstream
call. -/
theorem c1_service_path (cfg : Config) (sess : SessionState) (now : Nat)
    (userRefreshResp : Option TokenResponse) (svcResp : TokenResponse)
    (hnv : validAccess sess now = false)
    (hnr : truthyStr sess.refreshToken = false) :
    getAccessToken cfg sess now userRefreshResp svcResp =
      ((serviceFallback cfg svcResp).1, sess, (serviceFallback cfg svcResp).2) ∧
    (∀ svc, cfg.serviceRefreshToken = some svc → svc ≠ "" →
      ((svcResp.ok = true →
          (getAccessToken cfg sess now userRefreshResp svcResp).1 =
            TokenResult.ok svcResp.access_token Mode.demo) ∧
       (svcResp.ok = false →
          (getAccessToken cfg sess now userRefreshResp svcResp).1 =
            TokenResult.upstreamAuthError) ∧
       (getAccessToken cfg sess now userRefreshResp svcResp).2.2 =
         [UpstreamCall.refreshExchange svc])) ∧
    (truthyStr cfg.serviceRefreshToken = false →
      getAccessToken cfg sess now userRefreshResp svcResp =
        (TokenResult.noCredentialsError, sess, [])) := by
  have hmain : getAccessToken cfg sess now userRefreshResp svcResp =
      ((serviceFallback cfg svcResp).1, sess, (serviceFallback cfg svcResp).2) := by
    simp [getAccessToken, hnv, hnr]
  refine ⟨hmain, ?_, ?_⟩
  · intro svc hsvc hsvc'
    have hts : truthyStr cfg.serviceRefreshToken = true := by
      simp [truthyStr, hsvc, hsvc']
    refine ⟨?_, ?_, ?_⟩
    · intro hok
      rw [hmain]
      simp [serviceFallback, hts, hok]
    · intro hok
      rw [hmain]
      simp [serviceFallback, hts, hok]
    · have hts' : truthyStr (some svc) = true := by simp [truthyStr, hsvc']
      rw [hmain]
      simp [serviceFallback, hts, hsvc, hts']
  · intro hts
    rw [hmain]
    simp [serviceFallback, hts]

/-- Concrete instance of `c1_service_path` (successful service exchange). -/
theorem c1_service_path_witness :
    getAccessToken ⟨some "svc"⟩ emptySession 0 none ⟨true, "T", "", 0⟩ =
      (TokenResult.ok "T" Mode.demo, emptySession,
       [UpstreamCall.refreshExchange "svc"]) :=
  ((c1_service_path ⟨some "svc"⟩ emptySession 0 none ⟨true, "T", "", 0⟩
      (by decide) (by decide)).1).trans (by decide)

/-- C5: on `GET /callback`, whenever the session has a (truthy) stored state
and the returned state differs from it, the handler responds 400 with no
upstream call and the session — in particular its token fields — is left
exactly as it was (so fields that were unset stay unset); whenever no state
is stored in the session (and no error was returned and a code is present),
the handler is lenient and proceeds with the authorization-code exchange. -/
theorem c5_state_validation (sess : SessionState) (now : Nat) (q : CallbackQuery)
    (exchResp : Option TokenResponse) :
    (∀ s, sess.state = some s → s ≠ "" → q.state ≠ some s →
      callbackHandler sess now q exchResp = (400, sess, [])) ∧
    (truthyStr sess.state = false → orNull q.error = none →
      ∀ c, orNull q.code = some c →
        (callbackHandler sess now q exchResp).2.2 = [UpstreamCall.codeExchange c]) := by
  constructor
  · intro s hs hs' hq
    unfold callbackHandler
    cases herr : orNull q.error with
    | some e => simp
    | none =>
      cases hcode : orNull q.code with
      | none => simp
      | some c =>
        have hts : truthyStr sess.state = true := by simp [truthyStr, hs, hs']
        have hne : orNull q.state ≠ sess.state := by
          rw [hs]
          cases hqs : q.state with
          | none => simp [orNull]
          | some t =>
            by_cases ht : t = ""
            · simp [orNull, ht]
            · simp only [orNull, ht, if_neg ht]
              intro hcontra
              exact hq (by rw [hqs, Option.some_inj.mp hcontra])
        simp [hts, hne]
  · intro hts herr c hcode
    unfold callbackHandler
    rw [herr, hcode]
    simp only [hts, Bool.false_and, if_neg (by simp : ¬(false = true))]
    cases exchResp with
    | none => simp
    | some resp =>
      by_cases hok : resp.ok <;> simp [hok]

/-- Concrete instances of `c5_state_validation`: a state mismatch yields 400
with the session untouched, and a session without stored state proceeds to
the code exchange. -/
theorem c5_state_validation_witness :
    callbackHandler ⟨none, none, none, some "s1"⟩ 7
      ⟨some "code1", some "other", none⟩ (some ⟨true, "a", "r", 60⟩) =
      (400, ⟨none, none, none, some "s1"⟩, []) ∧
    (callbackHandler emptySession 7
      ⟨some "c2", none, none⟩ (some ⟨true, "a", "r", 60⟩)).2.2 =
      [UpstreamCall.codeExchange "c2"] :=
  ⟨(c5_state_validation ⟨none, none, none, some "s1"⟩ 7
      ⟨some "code1", some "other", none⟩ (some ⟨true, "a", "r", 60⟩)).1
      "s1" rfl (by decide) (by decide),
   (c5_state_validation emptySession 7
      ⟨some "c2", none, none⟩ (some ⟨true, "a", "r", 60⟩)).2
      (by decide) rfl "c2" rfl⟩

/-- C4: for a valid generation request (truthy name, non-empty artists,
`songCount` in `[1, 100]`) the selection step applied to any shuffle (any
permutation) of the candidate pool gathered by the per-artist searches yields
a URI list of length `min songCount poolSize`. -/
theorem c4_selection_size (req : GenRequest) (searchRespFor : Nat → TrackSearchResp)
    (shuffle : List Track → List Track) (n : Int) (artists : List String)
    (hname : truthyStr req.name = true)
    (hart : req.artists = some artists) (hne : artists ≠ [])
    (hsc : req.songCount = some n) (h1 : 1 ≤ n) (h100 : n ≤ 100)
    (pool : List Track)
    (hpool : pool = (gatherTracks req.startYear req.endYear artists searchRespFor).1)
    (hperm : (shuffle pool).Perm pool) :
    (selectUris (shuffle pool) req.songCount).length = min n.toNat pool.length := by
  have hn0 : n ≠ 0 := by omega
  have htr : truthyInt (some n) = true := by simp [truthyInt, hn0]
  have hk : ¬(n < 0) := by omega
  unfold selectUris
  rw [hsc]
  simp only [htr, if_true, Option.getD_some, if_neg hk]
  rw [List.length_map, List.length_take, hperm.length_eq]

/-- Concrete instance of `c4_selection_size`: one artist returning two tracks,
`songCount = 5`, identity shuffle — two URIs are selected. -/
theorem c4_selection_size_witness :
    (selectUris (id (gatherTracks none none ["A"]
        (fun _ => ⟨true, some [⟨"u1"⟩, ⟨"u2"⟩]⟩)).1) (some 5)).length =
      min (Int.toNat 5)
        (gatherTracks none none ["A"] (fun _ => ⟨true, some [⟨"u1"⟩, ⟨"u2"⟩]⟩)).1.length :=
  c4_selection_size ⟨some "p", some ["A"], some 5, none, none⟩
    (fun _ => ⟨true, some [⟨"u1"⟩, ⟨"u2"⟩]⟩) id 5 ["A"]
    (by decide) rfl (by decide) rfl (by decide) (by decide)
    (gatherTracks none none ["A"] (fun _ => ⟨true, some [⟨"u1"⟩, ⟨"u2"⟩]⟩)).1
    rfl (List.Perm.refl _)

/-- C9: the per-artist search loop issues, for each artist in the given order,
exactly one track search with limit 15 whose query is `artist:"<artist>"`,
suffixed with ` year:<start>-<end>` exactly when both year bounds are given
and truthy (non-zero), as the source's `startYear && endYear` guard reads
"given"; the trace of searches is independent of the replies (no abort), and
a non-ok reply for one artist contributes no tracks while the remaining
artists are still processed. -/
theorem c9_per_artist_search (startYear endYear : Option Int)
    (f : Nat → TrackSearchResp) :
    (∀ artists i, (gatherTracksAux startYear endYear f i artists).2 =
        artists.map (fun a =>
          UpstreamCall.searchCall (buildQuery startYear endYear a) "track" 15)) ∧
    (∀ i a rest, (f i).ok = false →
        gatherTracksAux startYear endYear f i (a :: rest) =
          ((gatherTracksAux startYear endYear f (i + 1) rest).1,
           UpstreamCall.searchCall (buildQuery startYear endYear a) "track" 15 ::
             (gatherTracksAux startYear endYear f (i + 1) rest).2)) ∧
    (∀ a sy ey, startYear = some sy → endYear = some ey → sy ≠ 0 → ey ≠ 0 →
        buildQuery startYear endYear a =
          "artist:\"" ++ a ++ "\"" ++ (" year:" ++ toString sy ++ "-" ++ toString ey)) ∧
    ((truthyInt startYear && truthyInt endYear) = false →
        ∀ a, buildQuery startYear endYear a = "artist:\"" ++ a ++ "\"") := by
  refine ⟨?_, ?_, ?_, ?_⟩
  · intro artists
    induction artists with
    | nil => intro i; simp [gatherTracksAux]
    | cons a rest ih =>
      intro i
      simp [gatherTracksAux, ih (i + 1)]
  · intro i a rest hfail
    simp [gatherTracksAux, hfail]
  · intro a sy ey hsy hey hsy0 hey0
    have h1 : truthyInt (some sy) = true := by simp [truthyInt, hsy0]
    have h2 : truthyInt (some ey) = true := by simp [truthyInt, hey0]
    simp [buildQuery, hsy, hey, h1, h2]
  · intro hb a
    simp only [buildQuery, hb, if_false, Bool.false_eq_true]
    simp

/-- Concrete instances of `c9_per_artist_search`: the year suffix with both
bounds given, the bare query without them, and the skip of an artist whose
search reply is non-ok while the next artist is still searched. -/
theorem c9_per_artist_search_witness :
    buildQuery (some 1990) (some 2000) "Queen" =
      "artist:\"Queen\"" ++ (" year:" ++ toString (1990 : Int) ++ "-" ++ toString (2000 : Int)) ∧
    buildQuery none none "Queen" = "artist:\"Queen\"" ∧
    gatherTracksAux none none
        (fun i => if i = 0 then ⟨false, some [⟨"u0"⟩]⟩ else ⟨true, some [⟨"u1"⟩]⟩)
        0 ["A", "B"] =
      ([⟨"u1"⟩],
       [UpstreamCall.searchCall "artist:\"A\"" "track" 15,
        UpstreamCall.searchCall "artist:\"B\"" "track" 15]) := by
  have h := c9_per_artist_search (some 1990) (some 2000)
    (fun i => if i = 0 then ⟨false, some [⟨"u0"⟩]⟩ else ⟨true, some [⟨"u1"⟩]⟩)
  have h' := c9_per_artist_search none none
    (fun i => if i = 0 then (⟨false, some [⟨"u0"⟩]⟩ : TrackSearchResp) else ⟨true, some [⟨"u1"⟩]⟩)
  refine ⟨?_, ?_, ?_⟩
  · have := h.2.2.1 "Queen" 1990 2000 rfl rfl (by decide) (by decide)
    simpa using this
  · exact h'.2.2.2 (by decide) "Queen"
  · have hskip := h'.2.1 0 "A" ["B"] (by decide)
    rw [hskip]
    decide

/-- C6 counterexample: the claim asserts a 400 for every `songCount` outside
`[1, 100]`, naming `songCount: 0` as an instance; but `0` is falsy in the
guard `songCount && (songCount < 1 || songCount > 100)`, so the request
`{name: "p", artists: ["a"], songCount: 0}` passes validation and proceeds
(here, with no credentials at all, to a 500 from token resolution — not 400). -/
theorem c6_counterexample :
    (generateHandler ⟨none⟩ emptySession 0 none ⟨false, "", "", 0⟩
        ⟨some "p", some ["a"], some 0, none, none⟩
        (fun _ => ⟨false, none⟩) id ⟨false, ""⟩ ⟨false, "", "", ""⟩ ⟨false⟩).1 = 500 ∧
    (generateHandler ⟨none⟩ emptySession 0 none ⟨false, "", "", 0⟩
        ⟨some "p", some ["a"], some 0, none, none⟩
        (fun _ => ⟨false, none⟩) id ⟨false, ""⟩ ⟨false, "", "", ""⟩ ⟨false⟩).1 ≠ 400 := by
  constructor
  · rfl
  · decide

/-- C6 (amended): `POST /api/generate` returns 400 with no upstream call when
the artists array is empty, and when `songCount` is truthy (non-zero) and
outside `[1, 100]`; a `songCount` of 0 is falsy, hence treated as absent
(defaulting to 20) rather than rejected. -/
theorem c6_validation (cfg : Config) (sess : SessionState) (now : Nat)
    (userRefreshResp : Option TokenResponse) (svcResp : TokenResponse)
    (req : GenRequest) (searchRespFor : Nat → TrackSearchResp)
    (shuffle : List Track → List Track)
    (meResp : MeResp) (createResp : CreateResp) (addResp : AddTracksResp) :
    (req.artists = some [] →
      generateHandler cfg sess now userRefreshResp svcResp req searchRespFor
          shuffle meResp createResp addResp = (400, sess, [])) ∧
    (∀ n : Int, req.songCount = some n → n ≠ 0 → (n < 1 ∨ 100 < n) →
      generateHandler cfg sess now userRefreshResp svcResp req searchRespFor
          shuffle meResp createResp addResp = (400, sess, [])) := by
  constructor
  · intro hart
    have hinv : nameArtistsInvalid req = true := by
      simp [nameArtistsInvalid, hart]
    simp [generateHandler, hinv]
  · intro n hsc hn0 hout
    by_cases hinv : nameArtistsInvalid req
    · simp [generateHandler, hinv]
    · have hscinv : songCountInvalid req.songCount = true := by
        rcases hout with h | h <;> simp [songCountInvalid, truthyInt, hsc, hn0, h]
      simp [generateHandler, hinv, hscinv]

/-- Concrete instances of `c6_validation`: empty artists give 400 with no
calls; `songCount = 150` gives 400 with no calls. -/
theorem c6_validation_witness :
    generateHandler ⟨some "svc"⟩ emptySession 0 none ⟨true, "T", "", 60⟩
        ⟨some "p", some [], some 5, none, none⟩
        (fun _ => ⟨true, some []⟩) id ⟨true, "me"⟩ ⟨true, "pl", "p", "u"⟩ ⟨true⟩ =
      (400, emptySession, []) ∧
    generateHandler ⟨some "svc"⟩ emptySession 0 none ⟨true, "T", "", 60⟩
        ⟨some "p", some ["a"], some 150, none, none⟩
        (fun _ => ⟨true, some []⟩) id ⟨true, "me"⟩ ⟨true, "pl", "p", "u"⟩ ⟨true⟩ =
      (400, emptySession, []) :=
  ⟨(c6_validation ⟨some "svc"⟩ emptySession 0 none ⟨true, "T", "", 60⟩
      ⟨some "p", some [], some 5, none, none⟩
      (fun _ => ⟨true, some []⟩) id ⟨true, "me"⟩ ⟨true, "pl", "p", "u"⟩ ⟨true⟩).1 rfl,
   (c6_validation ⟨some "svc"⟩ emptySession 0 none ⟨true, "T", "", 60⟩
      ⟨some "p", some ["a"], some 150, none, none⟩
      (fun _ => ⟨true, some []⟩) id ⟨true, "me"⟩ ⟨true, "pl", "p", "u"⟩ ⟨true⟩).2
      150 rfl (by decide) (by decide)⟩

/-- C8 counterexample: the claim asserts that a missing `q` is rejected before
any upstream call, but the handler resolves the access token first; with an
empty session and a configured service token the token endpoint is hit (one
refresh exchange) and only then is 400 returned — the upstream trace is
non-empty. -/
theorem c8_counterexample :
    (searchArtistsHandler ⟨some "svc"⟩ emptySession 0 none ⟨true, "T", "", 3600⟩
        none ⟨true, some []⟩).1 = 400 ∧
    (searchArtistsHandler ⟨some "svc"⟩ emptySession 0 none ⟨true, "T", "", 3600⟩
        none ⟨true, some []⟩).2.2 = [UpstreamCall.refreshExchange "svc"] ∧
    (searchArtistsHandler ⟨some "svc"⟩ emptySession 0 none ⟨true, "T", "", 3600⟩
        none ⟨true, some []⟩).2.2 ≠ [] := by
  refine ⟨rfl, rfl, by decide⟩

/-- With a falsy `q`, the search-artists handler's upstream trace is exactly
the token-resolution trace (no search call is appended). -/
theorem searchArtists_calls_eq_token_calls (cfg : Config) (sess : SessionState)
    (now : Nat) (u : Option TokenResponse) (s : TokenResponse)
    (q : Option String) (resp : ArtistSearchResp)
    (hq : truthyStr q = false) :
    (searchArtistsHandler cfg sess now u s q resp).2.2 =
      (getAccessToken cfg sess now u s).2.2 := by
  cases htok : (getAccessToken cfg sess now u s).1 with
  | ok tok mode => simp [searchArtistsHandler, htok, hq]
  | upstreamAuthError => simp [searchArtistsHandler, htok]
  | noCredentialsError => simp [searchArtistsHandler, htok]

/-- C8 (amended): on `GET /api/search-artists` with `q` missing (falsy), no
search call is ever issued, and whenever token resolution succeeds the
response is 400; but token resolution runs before the validation, so its
upstream token-exchange calls may precede the 400 (and if token resolution
fails the response is 500, not 400). -/
theorem c8_q_validation (cfg : Config) (sess : SessionState) (now : Nat)
    (userRefreshResp : Option TokenResponse) (svcResp : TokenResponse)
    (q : Option String) (resp : ArtistSearchResp)
    (hq : truthyStr q = false) :
    (∀ qs t l, UpstreamCall.searchCall qs t l ∉
        (searchArtistsHandler cfg sess now userRefreshResp svcResp q resp).2.2) ∧
    (∀ tok m, (getAccessToken cfg sess now userRefreshResp svcResp).1 =
        TokenResult.ok tok m →
      (searchArtistsHandler cfg sess now userRefreshResp svcResp q resp).1 = 400) := by
  constructor
  · intro qs t l hmem
    rw [searchArtists_calls_eq_token_calls cfg sess now userRefreshResp svcResp
      q resp hq] at hmem
    obtain ⟨r, hr⟩ := getAccessToken_calls_refresh_only cfg sess now
      userRefreshResp svcResp _ hmem
    cases hr
  · intro tok m htok
    simp [searchArtistsHandler, htok, hq]

/-- Concrete instance of `c8_q_validation`. -/
theorem c8_q_validation_witness :
    (∀ qs t l, UpstreamCall.searchCall qs t l ∉
        (searchArtistsHandler ⟨some "svc"⟩ emptySession 0 none ⟨true, "T", "", 3600⟩
          none ⟨true, some []⟩).2.2) ∧
    (searchArtistsHandler ⟨some "svc"⟩ emptySession 0 none ⟨true, "T", "", 3600⟩
        none ⟨true, some []⟩).1 = 400 :=
  ⟨(c8_q_validation ⟨some "svc"⟩ emptySession 0 none ⟨true, "T", "", 3600⟩
      none ⟨true, some []⟩ (by decide)).1,
   (c8_q_validation ⟨some "svc"⟩ emptySession 0 none ⟨true, "T", "", 3600⟩
      none ⟨true, some []⟩ (by decide)).2 "T" Mode.demo (by decide)⟩

/-- C7 (code evaluated at the failing input): in a run where validation
passes, token resolution, the search, the profile fetch and the playlist
creation all succeed, but the track-insertion call replies non-ok
(`AddTracksResp.ok = false`), the handler still returns 200 with the full
call trace — the source never inspects the insertion reply (lines 331-338),
so a failed step 7 yields a success response, contradicting the claim and
the spec's stated failure semantics. -/
theorem c7_insertion_failure_ignored :
    generateHandler ⟨some "svc"⟩ emptySession 0 none ⟨true, "T", "", 3600⟩
        ⟨some "Road Trip", some ["Queen"], some 5, none, none⟩
        (fun _ => ⟨true, some [⟨"u1"⟩, ⟨"u2"⟩]⟩) id
        ⟨true, "me1"⟩ ⟨true, "pl1", "Road Trip", "url1"⟩ ⟨false⟩ =
      (200, emptySession,
       [UpstreamCall.refreshExchange "svc",
        UpstreamCall.searchCall "artist:\"Queen\"" "track" 15,
        UpstreamCall.meCall,
        UpstreamCall.createPlaylistCall "me1" "Road Trip" true,
        UpstreamCall.addTracksCall "pl1" ["u1", "u2"]]) := by
  decide

/-- C10: a `POST /api/generate` body with a falsy `name` (absent or empty) is
rejected with 400 before any upstream call; consequently whenever a
playlist-creation call appears in the handler's trace, its name is the
client-supplied non-empty `name` — the `New Vibe Playlist` default at the
creation site is unreachable. -/
theorem c10_default_name_unreachable (cfg : Config) (sess : SessionState)
    (now : Nat) (userRefreshResp : Option TokenResponse) (svcResp : TokenResponse)
    (req : GenRequest) (searchRespFor : Nat → TrackSearchResp)
    (shuffle : List Track → List Track)
    (meResp : MeResp) (createResp : CreateResp) (addResp : AddTracksResp) :
    (truthyStr req.name = false →
      generateHandler cfg sess now userRefreshResp svcResp req searchRespFor
          shuffle meResp createResp addResp = (400, sess, [])) ∧
    (∀ uid nm pub, UpstreamCall.createPlaylistCall uid nm pub ∈
        (generateHandler cfg sess now userRefreshResp svcResp req searchRespFor
          shuffle meResp createResp addResp).2.2 →
      ∃ nstr, req.name = some nstr ∧ nstr ≠ "" ∧ nm = nstr) := by
  constructor
  · intro hfalsy
    have hinv : nameArtistsInvalid req = true := by
      simp [nameArtistsInvalid, hfalsy]
    simp [generateHandler, hinv]
  · intro uid nm pub hmem
    have hnotoken : ∀ u' n' p', UpstreamCall.createPlaylistCall u' n' p' ∉
        (getAccessToken cfg sess now userRefreshResp svcResp).2.2 := by
      intro u' n' p' hmem'
      obtain ⟨r, hr⟩ := getAccessToken_calls_refresh_only cfg sess now
        userRefreshResp svcResp _ hmem'
      cases hr
    have hnogather : ∀ u' n' p', UpstreamCall.createPlaylistCall u' n' p' ∉
        (gatherTracks req.startYear req.endYear (req.artists.getD []) searchRespFor).2 := by
      intro u' n' p' hmem'
      obtain ⟨qq, hq⟩ := gatherTracksAux_calls_search_only req.startYear req.endYear
        searchRespFor (req.artists.getD []) 0 _ hmem'
      cases hq
    by_cases hinv : nameArtistsInvalid req
    · simp [generateHandler, hinv] at hmem
    · by_cases hsc : songCountInvalid req.songCount
      · simp [generateHandler, hinv, hsc] at hmem
      · have hname : truthyStr req.name = true := by
          cases h : truthyStr req.name
          · exact absurd (by simp [nameArtistsInvalid, h] :
              nameArtistsInvalid req = true) hinv
          · rfl
        obtain ⟨nstr, hnstr⟩ : ∃ nstr, req.name = some nstr := by
          cases hn : req.name with
          | none => rw [hn] at hname; simp [truthyStr] at hname
          | some v => exact ⟨v, rfl⟩
        have hne : nstr ≠ "" := by
          rw [hnstr] at hname
          simpa [truthyStr] using hname
        refine ⟨nstr, hnstr, hne, ?_⟩
        cases htok : (getAccessToken cfg sess now userRefreshResp svcResp).1 with
        | upstreamAuthError =>
          simp only [generateHandler, if_neg hinv, if_neg hsc, htok] at hmem
          exact absurd hmem (hnotoken _ _ _)
        | noCredentialsError =>
          simp only [generateHandler, if_neg hinv, if_neg hsc, htok] at hmem
          exact absurd hmem (hnotoken _ _ _)
        | ok tok mode =>
          simp only [generateHandler, if_neg hinv, if_neg hsc, htok] at hmem
          rw [if_pos hname, hnstr] at hmem
          simp only [Option.getD_some] at hmem
          by_cases hsel : (selectUris
              (shuffle (gatherTracks req.startYear req.endYear
                (req.artists.getD []) searchRespFor).1) req.songCount).isEmpty
          · rw [if_pos hsel] at hmem
            simp only [List.mem_append] at hmem
            rcases hmem with h | h
            · exact absurd h (hnotoken _ _ _)
            · exact absurd h (hnogather _ _ _)
          · rw [if_neg hsel] at hmem
            by_cases hme : meResp.ok
            · have hme' : ¬((!meResp.ok) = true) := by simp [hme]
              rw [if_neg hme'] at hmem
              by_cases hcr : createResp.ok
              · have hcr' : ¬((!createResp.ok) = true) := by simp [hcr]
                rw [if_neg hcr'] at hmem
                simp only [List.append_assoc, List.singleton_append,
                  List.mem_append, List.mem_cons, List.not_mem_nil, or_false,
                  or_assoc] at hmem
                rcases hmem with h | h | h | h | h
                · exact absurd h (hnotoken _ _ _)
                · exact absurd h (hnogather _ _ _)
                · exact UpstreamCall.noConfusion h
                · injection h with h1 h2 h3
                · exact UpstreamCall.noConfusion h
              · have hcr' : (!createResp.ok) = true := by simp [hcr]
                rw [if_pos hcr'] at hmem
                simp only [List.append_assoc, List.singleton_append,
                  List.mem_append, List.mem_cons, List.not_mem_nil, or_false,
                  or_assoc] at hmem
                rcases hmem with h | h | h | h
                · exact absurd h (hnotoken _ _ _)
                · exact absurd h (hnogather _ _ _)
                · exact UpstreamCall.noConfusion h
                · injection h with h1 h2 h3
            · have hme' : (!meResp.ok) = true := by simp [hme]
              rw [if_pos hme'] at hmem
              simp only [List.append_assoc, List.singleton_append,
                List.mem_append, List.mem_cons, List.not_mem_nil, or_false,
                or_assoc] at hmem
              rcases hmem with h | h | h
              · exact absurd h (hnotoken _ _ _)
              · exact absurd h (hnogather _ _ _)
              · exact UpstreamCall.noConfusion h

/-- Concrete instances of `c10_default_name_unreachable`: an absent name gives
400 with no calls, and a successful run's creation call carries the supplied
name. -/
theorem c10_default_name_unreachable_witness :
    generateHandler ⟨some "svc"⟩ emptySession 0 none ⟨true, "T", "", 3600⟩
        ⟨none, some ["Queen"], some 5, none, none⟩
        (fun _ => ⟨true, some [⟨"u1"⟩]⟩) id
        ⟨true, "me1"⟩ ⟨true, "pl1", "P", "url1"⟩ ⟨true⟩ =
      (400, emptySession, []) ∧
    (∃ nstr, (some "My Mix" : Option String) = some nstr ∧ nstr ≠ "" ∧ "My Mix" = nstr) :=
  ⟨(c10_default_name_unreachable ⟨some "svc"⟩ emptySession 0 none ⟨true, "T", "", 3600⟩
      ⟨none, some ["Queen"], some 5, none, none⟩
      (fun _ => ⟨true, some [⟨"u1"⟩]⟩) id
      ⟨true, "me1"⟩ ⟨true, "pl1", "P", "url1"⟩ ⟨true⟩).1 (by decide),
   (c10_default_name_unreachable ⟨some "svc"⟩ emptySession 0 none ⟨true, "T", "", 3600⟩
      ⟨some "My Mix", some ["Queen"], some 5, none, none⟩
      (fun _ => ⟨true, some [⟨"u1"⟩]⟩) id
      ⟨true, "me1"⟩ ⟨true, "pl1", "My Mix", "url1"⟩ ⟨true⟩).2 "me1" "My Mix" true
      (by decide)⟩

end PartyPlaylister
